import Mathlib

/-!
Verification of the data-preparation pipeline in `tsg_insights/data/process.py`.

Python values, errors, and dictionaries are shallowly embedded: Python strings
stay `String` (or `List Char` where character-level reasoning is needed),
JSON-decoded values become the inductive `PyVal`, Python dicts become
association lists with Python's update semantics (`dictSet` keeps the position
of an existing key and appends new keys), and code that can raise becomes
`Except`.
-/

namespace Insights

/-- Python exception kinds raised by the modelled code paths. -/
inductive PyError where
  | typeError (msg : String)
  | keyError (msg : String)
  | valueError (msg : String)
deriving DecidableEq

/-- Outcome kinds of one external fetch (`requests.get(...).json()`):
`malformed` is a malformed-response error (`json.JSONDecodeError`, which is a
subclass of `ValueError`), `transport` any network/transport exception, which
the stage loops do not catch. -/
inductive FetchErr where
  | malformed
  | transport
deriving DecidableEq

/-- JSON-decoded Python values, as stored in the lookup cache namespaces. -/
inductive PyVal where
  | null
  | bool (b : Bool)
  | num (q : ℚ)
  | str (s : String)
  | list (xs : List PyVal)
  | dict (kvs : List (String × PyVal))

/-- Python dict read (`d.get(k)` as an `Option`): first matching key. -/
def dictGet {α : Type} : List (String × α) → String → Option α
  | [], _ => none
  | (k', v') :: rest, k => if k' = k then some v' else dictGet rest k

/-- Python dict assignment `d[k] = v`: replaces the value in place when the key
exists (keeping its position), otherwise appends the new pair. -/
def dictSet {α : Type} : List (String × α) → String → α → List (String × α)
  | [], k, v => [(k, v)]
  | (k', v') :: rest, k, v =>
    if k' = k then (k', v) :: rest else (k', v') :: dictSet rest k v

/-- Python truthiness of a JSON-decoded value. -/
def PyVal.truthy : PyVal → Bool
  | .null => false
  | .bool b => b
  | .num q => q ≠ 0
  | .str s => s ≠ ""
  | .list xs => !xs.isEmpty
  | .dict kvs => !kvs.isEmpty

/-- `v.get(k)` on a JSON object, defaulting to `None`.  The cache entries read
through this are JSON objects decoded from the external services; `.get` on a
non-object value would raise `AttributeError` in Python, a case outside the
cache states considered by the theorems below. -/
def pyGet (v : PyVal) (k : String) : PyVal :=
  match v with
  | .dict kvs => (dictGet kvs k).getD .null
  | _ => .null

/-- `v.get(k, d)` on a JSON object with an explicit default. -/
def pyGetD (v : PyVal) (k : String) (d : PyVal) : PyVal :=
  match v with
  | .dict kvs => (dictGet kvs k).getD d
  | _ => d

/-- `str(x)` as used to build geocode lookup keys.  String values are taken
verbatim; the remaining cases approximate Python's repr and are not relied on
by any theorem (geocode keys use string codes in practice). -/
def pyStr : PyVal → String
  | .str s => s
  | .num q => toString q
  | .bool b => cond b "True" "False"
  | .null => "None"
  | .list _ => "[...]"
  | .dict _ => "..."

/-! ## Identifier scheme derivation (process.py lines 207-216)

`AddExtraColumns.run` derives `Recipient Org:0:Identifier:Scheme` with
`lambda x: "360G" if x.startswith("360G-") else "-".join(x.split("-")[:2])`.
Python strings are embedded as `List Char` here so that the split/join can be
reasoned about character by character. -/

/-- Python `s.startswith(pre)`. -/
def pyStartsWith (pre s : List Char) : Bool := pre.isPrefixOf s

/-- Python `s.split(sep)` for a one-character separator: splits at every
occurrence of `sep`, keeping empty segments (`"".split("-") == [""]`,
`"a-".split("-") == ["a", ""]`). -/
def pySplit (sep : Char) : List Char → List (List Char)
  | [] => [[]]
  | c :: cs =>
    if c = sep then [] :: pySplit sep cs
    else
      match pySplit sep cs with
      | [] => [[c]]
      | seg :: rest => (c :: seg) :: rest

/-- The scheme lambda of `AddExtraColumns.run` (line 214), on character lists:
`"360G"` when the identifier starts with `"360G-"`, otherwise the first two
`-`-delimited segments joined by `-`. -/
def derivedSchemeL (x : List Char) : List Char :=
  if pyStartsWith "360G-".toList x then "360G".toList
  else List.intercalate ['-'] ((pySplit '-' x).take 2)

/-- The scheme lambda on `String`s. -/
def derivedScheme (x : String) : String := ⟨derivedSchemeL x.toList⟩

/-- `FTC_SCHEMES` (process.py line 21): schemes with data on findthatcharity. -/
def FTC_SCHEMES : List String := ["GB-CHC", "GB-NIC", "GB-SC", "GB-COH"]

/-! ## The pipeline run loop (process.py lines 71-135, `DataPreparation`) -/

/-- The twelve stage classes listed in `DataPreparation.__init__`
(process.py lines 74-87), in source order. -/
inductive StageClass where
  | loadDataset
  | checkColumnNames
  | checkColumnsExist
  | checkColumnTypes
  | addExtraColumns
  | cleanRecipientIdentifiers
  | lookupCharityDetails
  | lookupCompanyDetails
  | mergeCompanyAndCharityDetails
  | fetchPostcodes
  | mergeGeoData
  | addExtraFieldsExternal
deriving DecidableEq

/-- `self.stages` of `DataPreparation.__init__`. -/
def pipelineStages : List StageClass :=
  [.loadDataset, .checkColumnNames, .checkColumnsExist, .checkColumnTypes,
   .addExtraColumns, .cleanRecipientIdentifiers, .lookupCharityDetails,
   .lookupCompanyDetails, .mergeCompanyAndCharityDetails, .fetchPostcodes,
   .mergeGeoData, .addExtraFieldsExternal]

/-- The `name` class attribute of each stage class. -/
def stageName : StageClass → String
  | .loadDataset => "Load data to be prepared"
  | .checkColumnNames => "Check column names"
  | .checkColumnsExist => "Check columns exist"
  | .checkColumnTypes => "Check column types"
  | .addExtraColumns => "Add extra columns"
  | .cleanRecipientIdentifiers => "Clean recipient identifiers"
  | .lookupCharityDetails => "Look up charity data"
  | .lookupCompanyDetails => "Look up company data"
  | .mergeCompanyAndCharityDetails => "Add charity and company details to data"
  | .fetchPostcodes => "Look up postcode data"
  | .mergeGeoData => "Add geo data"
  | .addExtraFieldsExternal => "Add extra fields from external data"

/-- The Python class name of each stage class. -/
def stageClassName : StageClass → String
  | .loadDataset => "LoadDataset"
  | .checkColumnNames => "CheckColumnNames"
  | .checkColumnsExist => "CheckColumnsExist"
  | .checkColumnTypes => "CheckColumnTypes"
  | .addExtraColumns => "AddExtraColumns"
  | .cleanRecipientIdentifiers => "CleanRecipientIdentifiers"
  | .lookupCharityDetails => "LookupCharityDetails"
  | .lookupCompanyDetails => "LookupCompanyDetails"
  | .mergeCompanyAndCharityDetails => "MergeCompanyAndCharityDetails"
  | .fetchPostcodes => "FetchPostcodes"
  | .mergeGeoData => "MergeGeoData"
  | .addExtraFieldsExternal => "AddExtraFieldsExternal"

/-- Whether the class's constructor accepts the `(df, cache, job, **kwargs)`
arguments passed at process.py line 111.  Every stage class except
`LoadDataset` inherits `DataPreparationStage.__init__(self, df, cache, job,
**kwargs)` (lines 119-123); `LoadDataset` is declared as `class LoadDataset():`
(line 137) with no base class and no `__init__`, so `object.__init__` rejects
the arguments with a `TypeError`. -/
def acceptsRunArgs : StageClass → Bool
  | .loadDataset => false
  | _ => true

/-- The progress sub-dictionary `job.meta["progress"]` initialised at
process.py line 104: a `stage` index and an optional `(items_done, total)`
pair. -/
structure ProgressState where
  stage : Nat
  progress : Option (Nat × Nat)
deriving DecidableEq

/-- The job meta mapping written by the pipeline (`meta["stages"]`,
`meta["progress"]`); fields are `Option` because `job.meta` starts empty. -/
structure JobMeta where
  stages : Option (List String)
  progress : Option ProgressState
deriving DecidableEq

/-- `DataPreparation._setup_job_meta` (lines 100-105) on a present job handle:
records the ordered stage names and initialises
`progress = \x7bstage: 0, progress: None\x7d`. -/
def setupJobMeta (names : List String) (_m : JobMeta) : JobMeta :=
  { stages := some names, progress := some ⟨0, none⟩ }

/-- Instantiating a stage class with `Stage(df, self.cache, self.job,
**self.attributes)` (process.py line 111): raises `TypeError` for a class
whose constructor does not accept those arguments. -/
def constructStage (s : StageClass) : Except PyError Unit :=
  if acceptsRunArgs s then .ok ()
  else .error (.typeError (stageClassName s ++ "() takes no arguments"))

/-- The call `self._progress_job()` at process.py line 113.
`DataPreparation._progress_job` (line 93) has signature
`(self, stage_id, progress=None)`, so invoking it with no arguments raises
`TypeError` before its body (including the `if not self.job` guard) runs. -/
def progressJobNoArgs : Except PyError Unit :=
  .error (.typeError
    "_progress_job() missing 1 required positional argument: stage_id")

/-- The stage loop of `DataPreparation.run` (lines 110-113): instantiate the
stage class, run it on the current dataset and cache, then call
`self._progress_job()`.  The behaviour of each stage's `run` is abstracted as
`stageRun`. -/
def runStageList {Df Cache' : Type}
    (stageRun : StageClass → Df → Cache' → Except PyError (Df × Cache')) :
    List StageClass → Df → Cache' → Except PyError (Df × Cache')
  | [], df, cache => .ok (df, cache)
  | s :: rest, df, cache => do
    let _ ← constructStage s
    let (df', cache') ← stageRun s df cache
    let _ ← progressJobNoArgs
    runStageList stageRun rest df' cache'

/-- `DataPreparation.run` (lines 107-114) with a job handle present: set up
the job meta, then execute the stage loop.  Returns the final job meta
together with the run's outcome. -/
def dataPreparationRun {Df Cache' : Type}
    (stageRun : StageClass → Df → Cache' → Except PyError (Df × Cache'))
    (job : Option JobMeta) (df0 : Df) (cache0 : Cache') :
    Option JobMeta × Except PyError (Df × Cache') :=
  let job1 := job.map (setupJobMeta (pipelineStages.map stageName))
  (job1, runStageList stageRun pipelineStages df0 cache0)

/-! ## CheckColumnsExist (process.py lines 187-197) -/

/-- `CheckColumnNames.columns_to_check` (lines 172-175), inherited by
`CheckColumnsExist`. -/
def columns_to_check : List String :=
  ["Amount Awarded", "Funding Org:0:Name", "Award Date",
   "Recipient Org:0:Name", "Recipient Org:0:Identifier"]

/-- The message of the `ValueError` raised at lines 194-196:
`"Column \x7b\x7d not found in data. Columns: [\x7b\x7d]".format(c, ", ".join(self.df.columns))`. -/
def columnsErrMsg (c : String) (cols : List String) : String :=
  "Column " ++ c ++ " not found in data. Columns: [" ++
    String.intercalate ", " cols ++ "]"

/-- `CheckColumnsExist.run` (lines 191-197): iterate over
`columns_to_check` and raise a `ValueError` at the first required column not
among the dataset's columns `cols`; otherwise return the dataset and cache
unchanged. -/
def checkColumnsExistRun {Df Cache' : Type} (df : Df) (cache : Cache')
    (cols : List String) : Except String (Df × Cache') :=
  match columns_to_check.find? (fun c => decide (c ∉ cols)) with
  | some c => .error (columnsErrMsg c cols)
  | none => .ok (df, cache)

/-! ## CleanRecipientIdentifiers (process.py lines 218-254)

All operations of this stage (`.loc` with a boolean mask, `.isin`, `.notnull`,
`.fillna`, `.apply`) act row-wise, so the stage is embedded as a per-row
function mapped over the dataset.  A missing cell (pandas `NaN`) is `none`.
The optional columns `Recipient Org:0:Company Number` and
`Recipient Org:0:Charity Number` may be absent from the dataset, which the
two `Bool` flags record (a column being absent skips the corresponding
block, lines 233 and 242). -/

/-- One dataset row, restricted to the columns this stage touches. -/
structure CRRow where
  identifier : Option String
  scheme : Option String
  clean : Option String
  companyNumber : Option String
  charityNumber : Option String
deriving DecidableEq

/-- `self.df["Recipient Org:0:Identifier:Scheme"].isin(FTC_SCHEMES)` for one
row (`NaN` is never in the list). -/
def schemeIsin (r : CRRow) : Bool :=
  match r.scheme with
  | some s => FTC_SCHEMES.contains s
  | none => false

/-- `CleanRecipientIdentifiers.run` (lines 222-254) on one row.  `cno` stands
for `charity_number_to_org_id`; its source lives in `tsg_insights/data/utils.py`,
which is not part of the sources at hand.  Modelled from the spec: a
"synthesized charity org-id derived from a charity-number column", kept as an
abstract parameter applied to the raw cell (so its behaviour on a missing
number is also left abstract, matching `.apply` running over every cell). -/
def cleanRecipRow (cno : Option String → Option String)
    (hasCompanyCol hasCharityCol : Bool) (r : CRRow) : CRRow :=
  -- lines 223-230: default is use existing identifier, for rows whose scheme
  -- is in FTC_SCHEMES
  let clean1 : Option String :=
    if schemeIsin r then r.identifier else r.clean
  -- lines 232-239: for rows with a non-null company number, fill a missing
  -- Clean value with "GB-COH-" followed by the company number
  let clean2 : Option String :=
    if hasCompanyCol then
      match r.companyNumber with
      | some cn =>
        match clean1 with
        | some c => some c
        | none => some ("GB-COH-" ++ cn)
      | none => clean1
    else clean1
  -- lines 241-245: fill a still-missing Clean value from the charity number
  let clean3 : Option String :=
    if hasCharityCol then
      match clean2 with
      | some c => some c
      | none => cno r.charityNumber
    else clean2
  -- lines 247-252: recompute the scheme from the Clean value, falling back to
  -- the existing scheme when Clean is not a string
  let scheme4 : Option String :=
    match clean3 with
    | some c => some (derivedScheme c)
    | none => r.scheme
  { r with clean := clean3, scheme := scheme4 }

/-- `CleanRecipientIdentifiers.run` over the whole dataset. -/
def cleanRecipStage (cno : Option String → Option String)
    (hasCompanyCol hasCharityCol : Bool) (df : List CRRow) : List CRRow :=
  df.map (cleanRecipRow cno hasCompanyCol hasCharityCol)

/-! ## The three lookup stages (process.py lines 256-310 and 390-418)

Each loop mutates one cache namespace, a Python dict embedded as an
association list.  A namespace value is either a JSON record fetched from the
external service, or — after the reassignment performed on a cache hit — a
reference to the namespace dict itself (`_get_charity` returns
`self.cache["charity"]`, the whole namespace, when `cache["charity"].get(orgid)`
is truthy, and `run` stores that return value back under the key).  Since each
namespace ref can only point to the namespace the entry lives in, the
reference is represented by a dedicated constructor. -/

/-- A value stored in a lookup-cache namespace. -/
inductive CVal where
  | record (j : PyVal)
  | namespaceRef

/-- Python truthiness of a namespace value; a reference to the namespace dict
is truthy exactly when that dict is non-empty (`nsNonempty`). -/
def cvalTruthy (nsNonempty : Bool) : CVal → Bool
  | .record j => j.truthy
  | .namespaceRef => nsNonempty

/-- `if self.cache[ns].get(key):` — the cache-hit test of `_get_charity`
(line 263), `_get_company` (line 288) and `_get_postcode` (line 396). -/
def truthyLookup (cache : List (String × CVal)) (k : String) : Bool :=
  match dictGet cache k with
  | some v => cvalTruthy (!cache.isEmpty) v
  | none => false

/-- `LookupCharityDetails._get_charity` (lines 262-265): on a truthy cache hit
return `self.cache["charity"]` (the whole namespace dict, not the entry);
otherwise fetch `FTC_URL.format(orgid)` and decode it. -/
def getCharity (fetch : String → Except FetchErr PyVal)
    (cache : List (String × CVal)) (orgid : String) : Except FetchErr CVal :=
  if truthyLookup cache orgid then .ok .namespaceRef
  else (fetch orgid).map .record

/-- `LookupCompanyDetails._get_company` (lines 287-290): same shape, fetching
`CH_URL.format(orgid.replace("GB-COH-", ""))`. -/
def getCompany (fetch : String → Except FetchErr PyVal)
    (cache : List (String × CVal)) (orgid : String) : Except FetchErr CVal :=
  if truthyLookup cache orgid then .ok .namespaceRef
  else (fetch (orgid.replace "GB-COH-" "")).map .record

/-- `FetchPostcodes._get_postcode` (lines 395-399): same shape, fetching
`PC_URL.format(pc)`. -/
def getPostcode (fetch : String → Except FetchErr PyVal)
    (cache : List (String × CVal)) (pc : String) : Except FetchErr CVal :=
  if truthyLookup cache pc then .ok .namespaceRef
  else (fetch pc).map .record

/-- The fetch loop of `LookupCharityDetails.run` (lines 273-278): for each
orgid, `try: self.cache["charity"][orgid] = self._get_charity(orgid)
except ValueError: pass`.  A malformed-response error
(`json.JSONDecodeError`, a `ValueError` subclass) is caught and the item
skipped; any other fetch failure propagates and aborts the stage.  `ids` are
the distinct identifiers drawn from the dataset at lines 268-271. -/
def lookupCharityLoop (fetch : String → Except FetchErr PyVal) :
    List String → List (String × CVal) → Except FetchErr (List (String × CVal))
  | [], cache => .ok cache
  | orgid :: rest, cache =>
    match getCharity fetch cache orgid with
    | .ok v => lookupCharityLoop fetch rest (dictSet cache orgid v)
    | .error .malformed => lookupCharityLoop fetch rest cache
    | .error .transport => .error .transport

/-- The fetch loop of `LookupCompanyDetails.run` (lines 303-308), identical in
shape (`except ValueError: pass`). -/
def lookupCompanyLoop (fetch : String → Except FetchErr PyVal) :
    List String → List (String × CVal) → Except FetchErr (List (String × CVal))
  | [], cache => .ok cache
  | orgid :: rest, cache =>
    match getCompany fetch cache orgid with
    | .ok v => lookupCompanyLoop fetch rest (dictSet cache orgid v)
    | .error .malformed => lookupCompanyLoop fetch rest cache
    | .error .transport => .error .transport

/-- The fetch loop of `FetchPostcodes.run` (lines 411-416), identical in shape
(`except json.JSONDecodeError: continue`). -/
def lookupPostcodeLoop (fetch : String → Except FetchErr PyVal) :
    List String → List (String × CVal) → Except FetchErr (List (String × CVal))
  | [], cache => .ok cache
  | pc :: rest, cache =>
    match getPostcode fetch cache pc with
    | .ok v => lookupPostcodeLoop fetch rest (dictSet cache pc v)
    | .error .malformed => lookupPostcodeLoop fetch rest cache
    | .error .transport => .error .transport

/-! ## MergeCompanyAndCharityDetails (process.py lines 313-388)

The cache namespaces are given here with plain JSON values, as reloaded from
the serialized cross-run cache.  The pandas left join of the organisation
table onto the dataset (lines 382-387, including the `age` and
`latest_income` columns which depend on the wall clock) is abstracted as a
total function `join`; the claims below are decided before it is reached. -/

/-- One row of the organisation table built by `_create_orgid_df` /
`_create_company_df`.  Date cells keep the raw fetched value; the
`pd.to_datetime` parse is not modelled. -/
structure OrgRow where
  orgid : String
  charity_number : PyVal
  company_number : PyVal
  date_registered : PyVal
  date_removed : PyVal
  postcode : PyVal
  latest_income : PyVal
  org_type : PyVal

/-- `c.get("company_number")[0].get("number") if c.get("company_number") else
None` (line 327). -/
def charityCompanyNumber (c : PyVal) : PyVal :=
  if (pyGet c "company_number").truthy then
    match pyGet c "company_number" with
    | .list (x :: _) => pyGet x "number"
    | _ => .null
  else .null

/-- The charity-row dictionary of `_create_orgid_df` (lines 324-333). -/
def mkOrgRow (k : String) (c : PyVal) : OrgRow :=
  { orgid := k
    charity_number := pyGet c "id"
    company_number := charityCompanyNumber c
    date_registered := pyGet c "date_registered"
    date_removed := pyGet c "date_removed"
    postcode := pyGet (pyGetD c "geo" (.dict [])) "postcode"
    latest_income := pyGet c "latest_income"
    org_type := .str "Registered Charity" }

/-- `MergeCompanyAndCharityDetails._create_orgid_df` (lines 323-338): build
rows from the charity namespace entries whose `id` field is truthy.  When no
entry qualifies the comprehension is empty and
`pd.DataFrame([]).set_index("orgid")` raises `KeyError` (an empty frame has no
columns). -/
def createOrgidDf (charity : List (String × PyVal)) :
    Except PyError (List OrgRow) :=
  let usable := charity.filter (fun p => (pyGet p.2 "id").truthy)
  if usable.isEmpty then .error (.keyError "orgid")
  else .ok (usable.map (fun p => mkOrgRow p.1 p.2))

/-- `COMPANY_REPLACE` (lines 317-321): replacement values for
`CompanyCategory`. -/
def COMPANY_REPLACE : List (String × String) :=
  [("PRI/LBG/NSC (Private, Limited by guarantee, no share capital, use of 'Limited' exemption)",
    "Company Limited by Guarantee"),
   ("PRI/LTD BY GUAR/NSC (Private, limited by guarantee, no share capital)",
    "Company Limited by Guarantee"),
   ("PRIV LTD SECT. 30 (Private limited company, section 30 of the Companies Act)",
    "Private Limited Company")]

/-- `self.COMPANY_REPLACE.get(category, category)` (line 358), on the raw
`CompanyCategory` cell. -/
def companyCategoryReplace (v : PyVal) : PyVal :=
  match v with
  | .str s => .str ((dictGet COMPANY_REPLACE s).getD s)
  | _ => v

/-- `x is None`. -/
def PyVal.isNull : PyVal → Bool
  | .null => true
  | _ => false

/-- The company-row dictionary of `_create_company_df` (lines 345-359),
including the `None`-to-empty-dict normalisation of `primaryTopic` and
`RegAddress`. -/
def mkCompanyRow (k : String) (c : PyVal) : OrgRow :=
  let company0 := pyGetD c "primaryTopic" (.dict [])
  let company := if company0.isNull then PyVal.dict [] else company0
  let address0 := pyGetD (pyGetD c "primaryTopic" (.dict [])) "RegAddress" (.dict [])
  let address := if address0.isNull then PyVal.dict [] else address0
  { orgid := k
    charity_number := .null
    company_number := pyGet company "CompanyNumber"
    date_registered := pyGet company "IncorporationDate"
    date_removed := pyGet company "DissolutionDate"
    postcode := pyGet address "Postcode"
    latest_income := .null
    org_type := companyCategoryReplace (pyGet company "CompanyCategory") }

/-- `MergeCompanyAndCharityDetails._create_company_df` (lines 340-366):
`None` when the company namespace is empty, otherwise one row per entry. -/
def createCompanyDf (company : List (String × PyVal)) : Option (List OrgRow) :=
  if company.isEmpty then none
  else some (company.map (fun p => mkCompanyRow p.1 p.2))

/-- `MergeCompanyAndCharityDetails.run` (lines 368-388).  `_create_orgid_df`
runs first (line 371) and raises when no usable charity entry exists.  Of the
branch ladder at lines 374-379, the branch
`elif ~isinstance(orgid_df, pd.DataFrame): return (self.df, self.cache)` is
reached exactly when `companies_df` is `None`, and `~isinstance(...)` is the
*bitwise* not of a bool (`~True == -2`), which is truthy — so the dataset is
returned unchanged whenever there are no company entries.  Otherwise the two
tables are concatenated and joined onto the dataset (abstracted by `join`). -/
def mergeCompanyCharityRun {Df : Type} (join : Df → List OrgRow → Df)
    (charity company : List (String × PyVal)) (df : Df) :
    Except PyError Df := do
  let orgidDf ← createOrgidDf charity
  match createCompanyDf company with
  | some companiesDf => .ok (join df (orgidDf ++ companiesDf))
  | none => .ok df

/-! ## MergeGeoData (process.py lines 420-447) -/

/-- `POSTCODE_FIELDS` (lines 22-23). -/
def POSTCODE_FIELDS : List String :=
  ["ctry", "cty", "laua", "pcon", "rgn", "imd", "ru11ind", "oac11", "lat",
   "long"]

/-- One row of the postcode table: the postcode and one cell per geography
field, in `POSTCODE_FIELDS` order. -/
structure GeoRow where
  postcode : String
  cells : List (String × PyVal)

/-- The row dictionary of `_create_postcode_df` (lines 426-429):
`c.get("data", \x7b\x7d).get("attributes", \x7b\x7d).get(j)` for each field. -/
def mkGeoRow (k : String) (c : PyVal) : GeoRow :=
  { postcode := k
    cells := POSTCODE_FIELDS.map (fun j =>
      (j, pyGet (pyGetD (pyGetD c "data" (.dict [])) "attributes" (.dict [])) j)) }

/-- Read one field cell of a geo row (`None` when absent). -/
def geoRowGet (r : GeoRow) (c : String) : PyVal := (dictGet r.cells c).getD .null

/-- Write one field cell of a geo row. -/
def geoRowSet (r : GeoRow) (c : String) (v : PyVal) : GeoRow :=
  { r with cells := dictSet r.cells c v }

/-- `self.cache["geocodes"].get("-".join([c, str(x)]), x)` (line 434): swap a
coded value for its human-readable name, passing unmatched codes through. -/
def geocodeSwap (geocodes : List (String × String)) (c : String) (x : PyVal) :
    PyVal :=
  match dictGet geocodes (c ++ "-" ++ pyStr x) with
  | some name => .str name
  | none => x

/-- Whether a pandas column assembled from these cells has dtype `object`:
approximated as "holds at least one string" (a column of numbers and nulls is
numeric; any string forces `object`).  The theorems below do not depend on
this test. -/
def isObjectCol (cells : List PyVal) : Bool :=
  cells.any (fun v => match v with | .str _ => true | _ => false)

/-- The two fix-ups applied to an `object`-dtype column (lines 436-439): the
`.str.replace(..., "")` strips every `"(pseudo)"` occurrence and turns
non-string cells into `NaN`; then cells whose value ends in the sentinel
`"99999999"` are set to `None` (`fillna("")` makes the test false on `NaN`). -/
def objectFixup (v : PyVal) : PyVal :=
  match v with
  | .str s =>
    let s' := s.replace "(pseudo)" ""
    if s'.endsWith "99999999" then .null else .str s'
  | _ => .null

/-- The per-column body of the name-swap loop (lines 432-439). -/
def swapColumn (geocodes : List (String × String)) (c : String)
    (cells : List PyVal) : List PyVal :=
  let swapped := cells.map (geocodeSwap geocodes c)
  if isObjectCol swapped then swapped.map objectFixup else swapped

/-- The name-swap loop over all geography columns of the postcode table. -/
def applySwaps (geocodes : List (String × String)) (rows : List GeoRow) :
    List GeoRow :=
  POSTCODE_FIELDS.foldl
    (fun rs c =>
      let newCells := swapColumn geocodes c (rs.map (fun r => geoRowGet r c))
      (rs.zip newCells).map (fun p => geoRowSet p.1 c p.2))
    rows

/-- `MergeGeoData._create_postcode_df` (lines 425-441): with an empty postcode
namespace the comprehension is empty and
`pd.DataFrame([]).set_index("postcode")` raises `KeyError`; otherwise the
table is built and the name-swap loop applied. -/
def createPostcodeDf (geocodes : List (String × String))
    (postcodeNs : List (String × PyVal)) : Except PyError (List GeoRow) :=
  if postcodeNs.isEmpty then .error (.keyError "postcode")
  else .ok (applySwaps geocodes (postcodeNs.map (fun p => mkGeoRow p.1 p.2)))

/-- `MergeGeoData.run` (lines 443-447): build the postcode table, then
left-join it onto the dataset (the total pandas join is abstracted as
`join`). -/
def mergeGeoRun {Df : Type} (join : Df → List GeoRow → Df)
    (geocodes : List (String × String)) (postcodeNs : List (String × PyVal))
    (df : Df) : Except PyError Df := do
  let pdf ← createPostcodeDf geocodes postcodeNs
  .ok (join df pdf)

/-! ## AddExtraFieldsExternal (process.py lines 449-476) -/

/-- A bin edge of `pd.cut`: a finite rational or `float("inf")`. -/
inductive BinEdge where
  | fin (q : ℚ)
  | inf
deriving DecidableEq

/-- `lo < x` for the open lower edge of a `right=True` interval. -/
def edgeLt : BinEdge → ℚ → Bool
  | .fin q, x => decide (q < x)
  | .inf, _ => false

/-- `x ≤ hi` for the closed upper edge of a `right=True` interval. -/
def edgeLe : ℚ → BinEdge → Bool
  | x, .fin q => decide (x ≤ q)
  | _, .inf => true

/-- `pd.cut(x, bins, labels)` with the default `right=True` on one value: the
label of the first interval `(bins[i], bins[i+1]]` containing `x`, `NaN`
(`none`) when `x` falls outside every interval. -/
def pdCutRight : List BinEdge → List String → ℚ → Option String
  | lo :: hi :: rest, lab :: labs, x =>
    if edgeLt lo x && edgeLe x hi then some lab
    else pdCutRight (hi :: rest) labs x
  | _, _, _ => none

/-- `AMOUNT_BINS` (line 454). -/
def AMOUNT_BINS : List BinEdge :=
  [.fin (-1), .fin 500, .fin 1000, .fin 2000, .fin 5000, .fin 10000,
   .fin 100000, .fin 1000000, .inf]

/-- `AMOUNT_BIN_LABELS` (lines 455-456). -/
def AMOUNT_BIN_LABELS : List String :=
  ["Under £500", "£500 - £1,000", "£1,000 - £2,000", "£2k - £5k", "£5k - £10k",
   "£10k - £100k", "£100k - £1m", "Over £1m"]

/-- The `Amount Awarded:Bands` cell computed at lines 466-467 for one row. -/
def amountAwardedBand (x : ℚ) : Option String :=
  pdCutRight AMOUNT_BINS AMOUNT_BIN_LABELS x

/-! ## Theorems -/

theorem pySplit_ne_nil (sep : Char) (l : List Char) : pySplit sep l ≠ [] := by
  cases l with
  | nil => simp [pySplit]
  | cons c cs =>
    simp only [pySplit]
    split
    · simp
    · cases pySplit sep cs <;> simp

theorem pySplit_no_sep (sep : Char) (a : List Char) (h : sep ∉ a) :
    pySplit sep a = [a] := by
  induction a with
  | nil => rfl
  | cons c cs ih =>
    have hc : ¬ c = sep := fun he => h (he ▸ List.mem_cons_self c cs)
    have hcs : sep ∉ cs := fun hm => h (List.mem_cons_of_mem c hm)
    simp [pySplit, hc, ih hcs]

theorem pySplit_append (sep : Char) (a t : List Char) (h : sep ∉ a) :
    pySplit sep (a ++ sep :: t) = a :: pySplit sep t := by
  induction a with
  | nil => simp [pySplit]
  | cons c cs ih =>
    have hc : ¬ c = sep := fun he => h (he ▸ List.mem_cons_self c cs)
    have hcs : sep ∉ cs := fun hm => h (List.mem_cons_of_mem c hm)
    simp [pySplit, hc, ih hcs]

/-- C2 (amended): the derived scheme is `"360G"` whenever the identifier
starts with `"360G-"`; otherwise it is the first two `-`-delimited segments
joined by `-` (made concrete in the third conjunct for an identifier with at
least two separators).  The original claim's "if and only if" fails: the
derived scheme can be `"360G"` for an identifier that does not start with
`"360G-"` (see the counterexample for `id = "360G"`). -/
theorem C2_scheme_amended (x : List Char) :
    (pyStartsWith "360G-".toList x = true → derivedSchemeL x = "360G".toList)
    ∧ (pyStartsWith "360G-".toList x = false →
        derivedSchemeL x = List.intercalate ['-'] ((pySplit '-' x).take 2))
    ∧ (∀ a b rest : List Char, x = a ++ '-' :: (b ++ '-' :: rest) →
        '-' ∉ a → '-' ∉ b → pyStartsWith "360G-".toList x = false →
        derivedSchemeL x = a ++ '-' :: b) := by
  refine ⟨?_, ?_, ?_⟩
  · intro h
    simp only [derivedSchemeL]
    rw [if_pos h]
  · intro h
    simp only [derivedSchemeL]
    rw [if_neg (by simp only [Bool.not_eq_true]; simpa using h)]
  · intro a b rest hx ha hb h
    subst hx
    simp only [derivedSchemeL]
    rw [if_neg (by simp only [Bool.not_eq_true]; simpa using h)]
    rw [pySplit_append '-' a _ ha, pySplit_append '-' b rest hb]
    simp [List.intercalate, List.intersperse]

/-- C2 witness: for the identifier `"GB-CHC-123"` (which does not start with
`"360G-"`) the derived scheme is `"GB-CHC"`, the first two `-`-delimited
segments joined by `-`. -/
theorem C2_scheme_amended_witness :
    derivedSchemeL "GB-CHC-123".toList = "GB-CHC".toList :=
  ((C2_scheme_amended ("GB-CHC-123".toList)).2.2 "GB".toList "CHC".toList
    "123".toList (by decide) (by decide) (by decide) (by decide)).trans
    (by decide)

/-- C1: the claim says that with a job handle present `DataPreparation.run`
records the twelve ordered stage names and `progress = (stage 0, None)` in the
job meta, then executes the twelve stages in order, advancing and saving the
progress stage index after each.  The code performs the meta setup, but then
raises `TypeError` while instantiating the very first stage: `LoadDataset`
does not subclass `DataPreparationStage` and accepts no constructor
arguments.  No stage ever runs and the progress index is never advanced
(independently, the per-stage call `self._progress_job()` omits the required
`stage_id` argument and would itself raise `TypeError`). -/
theorem C1_run_typeerror {Df Cache' : Type}
    (stageRun : StageClass → Df → Cache' → Except PyError (Df × Cache'))
    (m0 : JobMeta) (df0 : Df) (cache0 : Cache') :
    dataPreparationRun stageRun (some m0) df0 cache0 =
      (some
        { stages := some ["Load data to be prepared", "Check column names",
            "Check columns exist", "Check column types", "Add extra columns",
            "Clean recipient identifiers", "Look up charity data",
            "Look up company data", "Add charity and company details to data",
            "Look up postcode data", "Add geo data",
            "Add extra fields from external data"],
          progress := some ⟨0, none⟩ },
       .error (.typeError "LoadDataset() takes no arguments")) := rfl

/-- C5: the claim says an identifier already present with a truthy value in a
namespace is not fetched again and its cache entry is left unchanged.  The
first half is true — here the fetch function fails with a transport error that
the loops do not catch, yet each loop returns normally, so no fetch happened —
but the entry is *not* left unchanged: `_get_charity` (resp. `_get_company`,
`_get_postcode`) returns the whole namespace dict on a cache hit and `run`
assigns it back over the entry, which becomes a self-referential namespace
reference instead of the original record. -/
theorem C5_cached_entry_overwritten :
    lookupCharityLoop (fun _ => .error .transport) ["GB-CHC-123456"]
        [("GB-CHC-123456",
          CVal.record (.dict [("id", .str "GB-CHC-123456")]))] =
      .ok [("GB-CHC-123456", CVal.namespaceRef)]
    ∧ lookupCompanyLoop (fun _ => .error .transport) ["GB-COH-01234567"]
        [("GB-COH-01234567",
          CVal.record (.dict [("CompanyNumber", .str "01234567")]))] =
      .ok [("GB-COH-01234567", CVal.namespaceRef)]
    ∧ lookupPostcodeLoop (fun _ => .error .transport) ["AB1 2CD"]
        [("AB1 2CD", CVal.record (.dict [("data", .dict [])]))] =
      .ok [("AB1 2CD", CVal.namespaceRef)]
    ∧ CVal.namespaceRef ≠
        CVal.record (.dict [("id", .str "GB-CHC-123456")]) :=
  ⟨rfl, rfl, rfl, fun h => CVal.noConfusion h⟩

/-- C6 counterexample: the claim places an award of exactly 500 in the band
"£500 - £1,000", but with bins `[-1, 500, 1000, ...]` and pandas' default
`right=True` the first interval is `(-1, 500]`, so 500 falls in
"Under £500". -/
theorem C6_counterexample :
    amountAwardedBand 500 = some "Under £500" ∧
    amountAwardedBand 500 ≠ some "£500 - £1,000" := by decide

/-- C6 (amended): an award of exactly 500 falls in "Under £500" (not
"£500 - £1,000"); 499.99 falls in "Under £500"; an award of -1 is excluded
(assigned no band); the band edges are `(-1, 500]`, `(500, 1000]`, and so on
— 500.01 falls in "£500 - £1,000". -/
theorem C6_amount_bands :
    amountAwardedBand 500 = some "Under £500" ∧
    amountAwardedBand (49999 / 100 : ℚ) = some "Under £500" ∧
    amountAwardedBand (-1) = none ∧
    amountAwardedBand (50001 / 100 : ℚ) = some "£500 - £1,000" := by
  refine ⟨by decide, ?_, by decide, ?_⟩ <;>
    norm_num [amountAwardedBand, AMOUNT_BINS, AMOUNT_BIN_LABELS, pdCutRight,
      edgeLt, edgeLe]

/-- C2 counterexample: the claim states `scheme(id) = "360G"` *iff* `id`
starts with `"360G-"`.  For `id = "360G"` the identifier does not start with
`"360G-"`, yet its first two `-`-delimited segments joined by `-` are
`"360G"` itself, so the derived scheme is `"360G"` and the only-if direction
fails. -/
theorem C2_counterexample :
    derivedScheme "360G" = "360G" ∧ "360G".startsWith "360G-" = false := by
  decide

/-- C7 counterexample: the claim states `CleanRecipientIdentifiers` is
idempotent on the Clean and Scheme columns.  On a dataset with a company
number column and the single row (identifier "360G-abc", scheme "360G",
company number "123"), the first run synthesises Clean "GB-COH-123" with
scheme "GB-COH"; since "GB-COH" is one of the FTC schemes, the second run
resets Clean to the original identifier "360G-abc" and the scheme to
"360G". -/
theorem C7_counterexample :
    (cleanRecipStage (fun _ => none) true false
        (cleanRecipStage (fun _ => none) true false
          [{ identifier := some "360G-abc", scheme := some "360G",
             clean := none, companyNumber := some "123",
             charityNumber := none }])).map
        (fun r => (r.clean, r.scheme)) ≠
      (cleanRecipStage (fun _ => none) true false
          [{ identifier := some "360G-abc", scheme := some "360G",
             clean := none, companyNumber := some "123",
             charityNumber := none }]).map
        (fun r => (r.clean, r.scheme)) := by decide

/-- C8 counterexample: the claim states the Clean identifier is *overridden*
with "GB-COH-(company number)" whenever a company-number column exists and the
row's company number is non-null.  The code only `fillna`s: for a row whose
scheme "GB-CHC" already set Clean to the original identifier, the company
number does not override it. -/
theorem C8_counterexample :
    (cleanRecipRow (fun _ => none) true false
        { identifier := some "GB-CHC-123", scheme := some "GB-CHC",
          clean := none, companyNumber := some "01234567",
          charityNumber := none }).clean = some "GB-CHC-123" ∧
    (cleanRecipRow (fun _ => none) true false
        { identifier := some "GB-CHC-123", scheme := some "GB-CHC",
          clean := none, companyNumber := some "01234567",
          charityNumber := none }).clean ≠ some "GB-COH-01234567" := by decide

theorem cleanRecipRow_idem_nocols (cno : Option String → Option String)
    (r : CRRow) (h : r.clean = none) :
    cleanRecipRow cno false false (cleanRecipRow cno false false r) =
      cleanRecipRow cno false false r := by
  obtain ⟨rid, rsc, rcl, rco, rch⟩ := r
  simp only [CRRow.mk.injEq] at h ⊢
  cases h
  cases rsc with
  | none => simp [cleanRecipRow, schemeIsin]
  | some s =>
    by_cases hm : s ∈ FTC_SCHEMES
    · cases rid with
      | none => simp [cleanRecipRow, schemeIsin, hm]
      | some id => simp [cleanRecipRow, schemeIsin, hm, ite_self]
    · simp [cleanRecipRow, schemeIsin, hm]

/-- C7 (amended): `CleanRecipientIdentifiers` is idempotent on datasets that
have neither a `Recipient Org:0:Company Number` nor a
`Recipient Org:0:Charity Number` column and no pre-existing Clean column
(every Clean cell missing), as is the case at this stage's position in the
pipeline.  With a company- or charity-number column present idempotence
fails: a second run can reset a synthesised Clean value back to the original
identifier (see the counterexample). -/
theorem C7_idempotent_amended (cno : Option String → Option String)
    (df : List CRRow) (h : ∀ r ∈ df, r.clean = none) :
    cleanRecipStage cno false false (cleanRecipStage cno false false df) =
      cleanRecipStage cno false false df := by
  simp only [cleanRecipStage, List.map_map]
  exact List.map_congr_left fun r hr => by
    simpa using cleanRecipRow_idem_nocols cno r (h r hr)

/-- C7 witness: a second run changes nothing on a one-row dataset without the
optional columns. -/
theorem C7_idempotent_amended_witness :
    cleanRecipStage (fun _ => none) false false
        (cleanRecipStage (fun _ => none) false false
          [{ identifier := some "GB-CHC-9", scheme := some "GB-CHC",
             clean := none, companyNumber := none, charityNumber := none }]) =
      cleanRecipStage (fun _ => none) false false
        [{ identifier := some "GB-CHC-9", scheme := some "GB-CHC",
           clean := none, companyNumber := none, charityNumber := none }] :=
  C7_idempotent_amended _ _ (by decide)

/-- C8 (amended): with both optional columns present, the Clean identifier
defaults to the original identifier when the scheme is one of GB-CHC, GB-NIC,
GB-SC, GB-COH (and a company number does *not* override that default); a row
whose Clean value is still missing after the default is fallback-filled with
"GB-COH-" followed by the company number when the row's company number is
non-null; and a row still missing after that is fallback-filled from the
synthesised charity org-id of its charity number. -/
theorem C8_clean_fallback (cno : Option String → Option String) (r : CRRow) :
    (schemeIsin r = true → ∀ id, r.identifier = some id →
      (cleanRecipRow cno true true r).clean = some id)
    ∧ (r.clean = none → schemeIsin r = false →
      ∀ cn, r.companyNumber = some cn →
      (cleanRecipRow cno true true r).clean = some ("GB-COH-" ++ cn))
    ∧ (r.clean = none → schemeIsin r = false → r.companyNumber = none →
      (cleanRecipRow cno true true r).clean = cno r.charityNumber) := by
  refine ⟨?_, ?_, ?_⟩
  · intro hi id hid
    cases hc : r.companyNumber <;> simp [cleanRecipRow, hi, hid, hc]
  · intro h0 hi cn hcn
    simp [cleanRecipRow, hi, h0, hcn]
  · intro h0 hi hcn
    simp [cleanRecipRow, hi, h0, hcn]

/-- C8 witness: the three fallback rules at concrete rows — the FTC-scheme
default survives a non-null company number, a missing Clean is filled from
the company number, and a still-missing Clean is filled from the charity
number. -/
theorem C8_clean_fallback_witness :
    (cleanRecipRow (fun x => x) true true
        { identifier := some "GB-CHC-7", scheme := some "GB-CHC",
          clean := none, companyNumber := some "99",
          charityNumber := none }).clean = some "GB-CHC-7" ∧
    (cleanRecipRow (fun x => x) true true
        { identifier := some "X-Y-1", scheme := some "X-Y", clean := none,
          companyNumber := some "99",
          charityNumber := none }).clean = some "GB-COH-99" ∧
    (cleanRecipRow (fun x => x) true true
        { identifier := some "X-Y-1", scheme := some "X-Y", clean := none,
          companyNumber := none,
          charityNumber := some "123" }).clean = some "123" :=
  ⟨(C8_clean_fallback (fun x => x) _).1 (by decide) _ rfl,
   (C8_clean_fallback (fun x => x) _).2.1 rfl (by decide) _ rfl,
   (C8_clean_fallback (fun x => x) _).2.2 rfl (by decide) rfl⟩

/-- C4: for a dataset whose (post-rename) columns miss at least one of the
five required columns, `CheckColumnsExist.run` raises a `ValueError` whose
message names a missing required column and lists all available columns; when
all five are present it returns the dataset and cache unchanged. -/
theorem C4_check_columns_exist {Df Cache' : Type} (df : Df) (cache : Cache')
    (cols : List String) :
    ((∃ c ∈ columns_to_check, c ∉ cols) →
      ∃ c, c ∈ columns_to_check ∧ c ∉ cols ∧
        checkColumnsExistRun df cache cols = .error (columnsErrMsg c cols))
    ∧ ((∀ c ∈ columns_to_check, c ∈ cols) →
      checkColumnsExistRun df cache cols = .ok (df, cache)) := by
  constructor
  · intro hex
    cases hf : columns_to_check.find? (fun c => decide (c ∉ cols)) with
    | none =>
      exfalso
      obtain ⟨c, hc, hnc⟩ := hex
      have hn := List.find?_eq_none.mp hf c hc
      simp at hn
      exact hnc hn
    | some c =>
      refine ⟨c, List.mem_of_find?_eq_some hf, ?_, ?_⟩
      · simpa using List.find?_some hf
      · unfold checkColumnsExistRun
        rw [hf]
  · intro hall
    have hf : columns_to_check.find? (fun c => decide (c ∉ cols)) = none := by
      apply List.find?_eq_none.mpr
      intro c hc
      simpa using hall c hc
    unfold checkColumnsExistRun
    rw [hf]

/-- C4 witness: with `Recipient Org:0:Identifier` missing the stage fails
with the formatted message; with all five columns present it returns the
dataset and cache unchanged. -/
theorem C4_check_columns_exist_witness :
    (∃ c, c ∈ columns_to_check ∧
      c ∉ ["Amount Awarded", "Funding Org:0:Name", "Award Date",
           "Recipient Org:0:Name"] ∧
      checkColumnsExistRun (0 : Nat) "cache"
          ["Amount Awarded", "Funding Org:0:Name", "Award Date",
           "Recipient Org:0:Name"] =
        .error (columnsErrMsg c
          ["Amount Awarded", "Funding Org:0:Name", "Award Date",
           "Recipient Org:0:Name"])) ∧
    checkColumnsExistRun (0 : Nat) "cache"
        ["Amount Awarded", "Funding Org:0:Name", "Award Date",
         "Recipient Org:0:Name", "Recipient Org:0:Identifier", "Extra"] =
      .ok ((0 : Nat), "cache") :=
  ⟨(C4_check_columns_exist 0 "cache" _).1 (by decide),
   (C4_check_columns_exist 0 "cache" _).2 (by decide)⟩

/-- C9: the claim says that with no usable charity cache entries the
organisation table is built from the company table alone, and that with
neither charity nor company entries the stage passes the dataset through
unchanged.  In the code `_create_orgid_df` runs first and, when no charity
entry has a truthy `id`, calls `pd.DataFrame([]).set_index("orgid")`, which
raises `KeyError` — so in both claimed scenarios the stage aborts instead.
(`hdict` restricts to charity namespaces holding JSON objects, the domain on
which `.get` is modelled.) -/
theorem C9_merge_keyerror {Df : Type} (join : Df → List OrgRow → Df)
    (charity company : List (String × PyVal)) (df : Df)
    (_hdict : ∀ p ∈ charity, ∃ kvs, p.2 = PyVal.dict kvs)
    (hid : ∀ p ∈ charity, (pyGet p.2 "id").truthy = false) :
    mergeCompanyCharityRun join charity company df =
      .error (.keyError "orgid") := by
  have hfil : charity.filter (fun p => (pyGet p.2 "id").truthy) = [] := by
    apply List.filter_eq_nil_iff.mpr
    intro p hp
    simp [hid p hp]
  have hco : createOrgidDf charity = .error (.keyError "orgid") := by
    simp [createOrgidDf, hfil]
  unfold mergeCompanyCharityRun
  rw [hco]
  rfl

/-- C9 witness: an empty charity namespace together with a non-empty company
namespace makes the stage raise `KeyError("orgid")` rather than build the
organisation table from companies alone. -/
theorem C9_merge_keyerror_witness :
    mergeCompanyCharityRun (fun (d : Nat) _ => d) []
        [("GB-COH-01234567", PyVal.dict [("primaryTopic", PyVal.null)])]
        (7 : Nat) = .error (.keyError "orgid") :=
  C9_merge_keyerror _ [] _ 7 (fun p hp => absurd hp (List.not_mem_nil p))
    (fun p hp => absurd hp (List.not_mem_nil p))

/-- C10: if the postcode namespace of the cache is empty when `MergeGeoData`
runs, `_create_postcode_df` raises (`pd.DataFrame([]).set_index("postcode")`
is a `KeyError`) instead of the stage returning the dataset unchanged; and
the stage can only complete successfully when at least one postcode entry is
present. -/
theorem C10_geo_requires_postcodes {Df : Type} (join : Df → List GeoRow → Df)
    (geocodes : List (String × String)) (postcodeNs : List (String × PyVal))
    (df : Df) :
    (postcodeNs = [] →
      mergeGeoRun join geocodes postcodeNs df = .error (.keyError "postcode"))
    ∧ (∀ r, mergeGeoRun join geocodes postcodeNs df = .ok r →
        postcodeNs ≠ []) := by
  constructor
  · intro h
    subst h
    rfl
  · intro r hok hne
    rw [hne] at hok
    have h2 : mergeGeoRun join geocodes ([] : List (String × PyVal)) df =
        .error (.keyError "postcode") := rfl
    rw [h2] at hok
    exact Except.noConfusion hok

/-- C10 witness: the empty namespace aborts with `KeyError("postcode")`, and
the non-empty namespace used in the successful-run direction is indeed
non-empty. -/
theorem C10_geo_requires_postcodes_witness :
    mergeGeoRun (fun (d : Nat) _ => d) [] ([] : List (String × PyVal)) (0 : Nat)
      = .error (.keyError "postcode") ∧
    ([("AB1 2CD", PyVal.dict [("data", PyVal.dict [("attributes",
        PyVal.dict [("lat", PyVal.num 51)])])])] :
      List (String × PyVal)) ≠ [] :=
  ⟨(C10_geo_requires_postcodes (fun (d : Nat) _ => d) [] [] 0).1 rfl,
   (C10_geo_requires_postcodes (fun (d : Nat) _ => d) []
      [("AB1 2CD", PyVal.dict [("data", PyVal.dict [("attributes",
        PyVal.dict [("lat", PyVal.num 51)])])])] 0).2 0 rfl⟩

theorem dictGet_dictSet_self {α : Type} (l : List (String × α)) (k : String)
    (v : α) : dictGet (dictSet l k v) k = some v := by
  induction l with
  | nil => simp [dictGet, dictSet]
  | cons p rest ih =>
    obtain ⟨k0, v0⟩ := p
    by_cases h : k0 = k
    · simp [dictGet, dictSet, h]
    · simp [dictGet, dictSet, h, ih]

theorem dictGet_dictSet_ne {α : Type} (l : List (String × α)) (k k' : String)
    (v : α) (h : k ≠ k') : dictGet (dictSet l k v) k' = dictGet l k' := by
  induction l with
  | nil => simp [dictGet, dictSet, h]
  | cons p rest ih =>
    obtain ⟨k0, v0⟩ := p
    by_cases h0 : k0 = k
    · subst h0
      simp [dictGet, dictSet, h]
    · simp [dictGet, dictSet, h0, ih]

theorem getCharity_transport (eff : String → Except FetchErr PyVal)
    (cache : List (String × CVal)) (i : String)
    (hg : getCharity eff cache i = .error .transport) :
    eff i = .error .transport := by
  unfold getCharity at hg
  split at hg
  · exact Except.noConfusion hg
  · cases he : eff i with
    | ok v => rw [he] at hg; simp [Except.map] at hg
    | error e2 =>
      rw [he] at hg
      simp [Except.map] at hg
      rw [hg]

theorem lookupCharityLoop_ok (eff : String → Except FetchErr PyVal)
    (ids : List String) :
    ∀ cache, (∀ i ∈ ids, eff i ≠ .error .transport) →
      ∃ c', lookupCharityLoop eff ids cache = .ok c' := by
  induction ids with
  | nil => exact fun cache _ => ⟨cache, rfl⟩
  | cons i rest ih =>
    intro cache h
    have hi := h i (List.mem_cons_self i rest)
    have hrest : ∀ j ∈ rest, eff j ≠ .error .transport :=
      fun j hj => h j (List.mem_cons_of_mem i hj)
    cases hg : getCharity eff cache i with
    | ok v =>
      obtain ⟨c', hc'⟩ := ih (dictSet cache i v) hrest
      exact ⟨c', by simp only [lookupCharityLoop, hg]; exact hc'⟩
    | error e =>
      cases e with
      | malformed =>
        obtain ⟨c', hc'⟩ := ih cache hrest
        exact ⟨c', by simp only [lookupCharityLoop, hg]; exact hc'⟩
      | transport => exact absurd (getCharity_transport eff cache i hg) hi

theorem lookupCharityLoop_mono (eff : String → Except FetchErr PyVal)
    (ids : List String) :
    ∀ cache c', lookupCharityLoop eff ids cache = .ok c' →
      ∀ k, (dictGet cache k).isSome → (dictGet c' k).isSome := by
  induction ids with
  | nil =>
    intro cache c' h k hk
    simp only [lookupCharityLoop, Except.ok.injEq] at h
    exact h ▸ hk
  | cons i rest ih =>
    intro cache c' h k hk
    cases hg : getCharity eff cache i with
    | ok v =>
      simp only [lookupCharityLoop, hg] at h
      apply ih _ _ h k
      by_cases hik : i = k
      · subst hik
        simp [dictGet_dictSet_self]
      · rw [dictGet_dictSet_ne _ _ _ _ hik]
        exact hk
    | error e =>
      cases e with
      | malformed =>
        simp only [lookupCharityLoop, hg] at h
        exact ih _ _ h k hk
      | transport =>
        simp only [lookupCharityLoop, hg] at h
        exact Except.noConfusion h

theorem lookupCharityLoop_untouched (eff : String → Except FetchErr PyVal)
    (ids : List String) :
    ∀ cache c', lookupCharityLoop eff ids cache = .ok c' →
      ∀ k, k ∉ ids → dictGet c' k = dictGet cache k := by
  induction ids with
  | nil =>
    intro cache c' h k _
    simp only [lookupCharityLoop, Except.ok.injEq] at h
    rw [h]
  | cons i rest ih =>
    intro cache c' h k hk
    have hki : i ≠ k := fun he => hk (he ▸ List.mem_cons_self i rest)
    have hkr : k ∉ rest := fun hm => hk (List.mem_cons_of_mem i hm)
    cases hg : getCharity eff cache i with
    | ok v =>
      simp only [lookupCharityLoop, hg] at h
      rw [ih _ _ h k hkr, dictGet_dictSet_ne _ _ _ _ hki]
    | error e =>
      cases e with
      | malformed =>
        simp only [lookupCharityLoop, hg] at h
        exact ih _ _ h k hkr
      | transport =>
        simp only [lookupCharityLoop, hg] at h
        exact Except.noConfusion h

theorem lookupCharityLoop_absent (eff : String → Except FetchErr PyVal)
    (ids : List String) :
    ∀ cache c', ids.Nodup → lookupCharityLoop eff ids cache = .ok c' →
      ∀ i ∈ ids, eff i = .error .malformed → dictGet cache i = none →
        dictGet c' i = none := by
  induction ids with
  | nil => intro _ _ _ _ i hi; exact absurd hi (List.not_mem_nil i)
  | cons j rest ih =>
    intro cache c' hnd h i hi hm h0
    have hjrest : j ∉ rest := (List.nodup_cons.mp hnd).1
    have hndr : rest.Nodup := (List.nodup_cons.mp hnd).2
    rcases List.mem_cons.mp hi with rfl | hir
    · have htr : truthyLookup cache i = false := by
        simp [truthyLookup, h0]
      have hg : getCharity eff cache i = .error .malformed := by
        simp [getCharity, htr, hm, Except.map]
      simp only [lookupCharityLoop, hg] at h
      rw [lookupCharityLoop_untouched eff rest cache c' h i hjrest]
      exact h0
    · have hji : j ≠ i := fun he => hjrest (he ▸ hir)
      cases hg : getCharity eff cache j with
      | ok v =>
        simp only [lookupCharityLoop, hg] at h
        apply ih _ _ hndr h i hir hm
        rw [dictGet_dictSet_ne _ _ _ _ hji]
        exact h0
      | error e =>
        cases e with
        | malformed =>
          simp only [lookupCharityLoop, hg] at h
          exact ih _ _ hndr h i hir hm h0
        | transport =>
          simp only [lookupCharityLoop, hg] at h
          exact Except.noConfusion h

theorem lookupCharityLoop_present (eff : String → Except FetchErr PyVal)
    (ids : List String) :
    ∀ cache c', lookupCharityLoop eff ids cache = .ok c' →
      ∀ j ∈ ids, (∃ v, eff j = .ok v) → (dictGet c' j).isSome := by
  induction ids with
  | nil => intro _ _ _ j hj; exact absurd hj (List.not_mem_nil j)
  | cons i rest ih =>
    intro cache c' h j hj hv
    rcases List.mem_cons.mp hj with rfl | hjr
    · cases hg : getCharity eff cache j with
      | ok v =>
        simp only [lookupCharityLoop, hg] at h
        exact lookupCharityLoop_mono eff rest _ _ h j
          (by simp [dictGet_dictSet_self])
      | error e =>
        cases e with
        | malformed =>
          exfalso
          obtain ⟨v, hv'⟩ := hv
          unfold getCharity at hg
          split at hg
          · exact Except.noConfusion hg
          · rw [hv'] at hg
            simp [Except.map] at hg
        | transport =>
          simp only [lookupCharityLoop, hg] at h
          exact Except.noConfusion h
    · cases hg : getCharity eff cache i with
      | ok v =>
        simp only [lookupCharityLoop, hg] at h
        exact ih _ _ h j hjr hv
      | error e =>
        cases e with
        | malformed =>
          simp only [lookupCharityLoop, hg] at h
          exact ih _ _ h j hjr hv
        | transport =>
          simp only [lookupCharityLoop, hg] at h
          exact Except.noConfusion h

theorem lookupCompanyLoop_eq (fetch : String → Except FetchErr PyVal)
    (ids : List String) :
    ∀ cache, lookupCompanyLoop fetch ids cache =
      lookupCharityLoop (fun o => fetch (o.replace "GB-COH-" "")) ids cache := by
  induction ids with
  | nil => intro cache; rfl
  | cons i rest ih =>
    intro cache
    have hgc : getCompany fetch cache i =
        getCharity (fun o => fetch (o.replace "GB-COH-" "")) cache i := rfl
    cases hg : getCharity (fun o => fetch (o.replace "GB-COH-" "")) cache i with
    | ok v => simp only [lookupCompanyLoop, lookupCharityLoop, hgc, hg, ih]
    | error e =>
      cases e <;>
        simp only [lookupCompanyLoop, lookupCharityLoop, hgc, hg, ih]

theorem lookupPostcodeLoop_eq (fetch : String → Except FetchErr PyVal)
    (ids : List String) :
    ∀ cache, lookupPostcodeLoop fetch ids cache =
      lookupCharityLoop fetch ids cache := by
  induction ids with
  | nil => intro cache; rfl
  | cons i rest ih =>
    intro cache
    have hgc : getPostcode fetch cache i = getCharity fetch cache i := rfl
    cases hg : getCharity fetch cache i with
    | ok v => simp only [lookupPostcodeLoop, lookupCharityLoop, hgc, hg, ih]
    | error e =>
      cases e <;>
        simp only [lookupPostcodeLoop, lookupCharityLoop, hgc, hg, ih]

/-- C3: for each of the three lookup stages, when no item's fetch fails with a
transport error, the stage's fetch loop returns normally; an item whose fetch
fails with a malformed-response error is simply absent from the corresponding
cache namespace (it was not there before and is not added), and the loop still
processes the remaining items — every item whose fetch succeeds ends up
present in the namespace.  (`idsC`, `idsK`, `idsP` are the deduplicated
identifier/postcode lists drawn from the dataset; the company stage fetches
with the `"GB-COH-"` prefix stripped.) -/
theorem C3_per_item_failures_skipped
    (fc fk fp : String → Except FetchErr PyVal)
    (idsC idsK idsP : List String)
    (cC cK cP : List (String × CVal))
    (hndC : idsC.Nodup) (hndK : idsK.Nodup) (hndP : idsP.Nodup)
    (htC : ∀ i ∈ idsC, fc i ≠ .error .transport)
    (htK : ∀ i ∈ idsK, fk (i.replace "GB-COH-" "") ≠ .error .transport)
    (htP : ∀ i ∈ idsP, fp i ≠ .error .transport) :
    (∃ c', lookupCharityLoop fc idsC cC = .ok c' ∧
      (∀ i ∈ idsC, fc i = .error .malformed → dictGet cC i = none →
        dictGet c' i = none) ∧
      (∀ j ∈ idsC, (∃ v, fc j = .ok v) → (dictGet c' j).isSome)) ∧
    (∃ c', lookupCompanyLoop fk idsK cK = .ok c' ∧
      (∀ i ∈ idsK, fk (i.replace "GB-COH-" "") = .error .malformed →
        dictGet cK i = none → dictGet c' i = none) ∧
      (∀ j ∈ idsK, (∃ v, fk (j.replace "GB-COH-" "") = .ok v) →
        (dictGet c' j).isSome)) ∧
    (∃ c', lookupPostcodeLoop fp idsP cP = .ok c' ∧
      (∀ i ∈ idsP, fp i = .error .malformed → dictGet cP i = none →
        dictGet c' i = none) ∧
      (∀ j ∈ idsP, (∃ v, fp j = .ok v) → (dictGet c' j).isSome)) := by
  refine ⟨?_, ?_, ?_⟩
  · obtain ⟨c', hc'⟩ := lookupCharityLoop_ok fc idsC cC htC
    exact ⟨c', hc',
      fun i hi hm h0 =>
        lookupCharityLoop_absent fc idsC cC c' hndC hc' i hi hm h0,
      fun j hj hv => lookupCharityLoop_present fc idsC cC c' hc' j hj hv⟩
  · obtain ⟨c', hc'⟩ :=
      lookupCharityLoop_ok (fun o => fk (o.replace "GB-COH-" "")) idsK cK htK
    refine ⟨c', ?_,
      fun i hi hm h0 =>
        lookupCharityLoop_absent _ idsK cK c' hndK hc' i hi hm h0,
      fun j hj hv => lookupCharityLoop_present _ idsK cK c' hc' j hj hv⟩
    rw [lookupCompanyLoop_eq fk idsK cK]
    exact hc'
  · obtain ⟨c', hc'⟩ := lookupCharityLoop_ok fp idsP cP htP
    refine ⟨c', ?_,
      fun i hi hm h0 =>
        lookupCharityLoop_absent fp idsP cP c' hndP hc' i hi hm h0,
      fun j hj hv => lookupCharityLoop_present fp idsP cP c' hc' j hj hv⟩
    rw [lookupPostcodeLoop_eq fp idsP cP]
    exact hc'

/-- C3 witness: two charity identifiers of which the second fetches a
malformed response, one company identifier with a malformed response, and one
postcode that fetches successfully — all three loops return normally, the
malformed items stay absent, and the successful items are present. -/
theorem C3_per_item_failures_skipped_witness :
    (∃ c', lookupCharityLoop
        (fun s => if s = "GB-CHC-1" then Except.ok (PyVal.str "r")
          else Except.error FetchErr.malformed)
        ["GB-CHC-1", "GB-CHC-2"] [] = .ok c' ∧
      (∀ i ∈ ["GB-CHC-1", "GB-CHC-2"],
        (if i = "GB-CHC-1" then Except.ok (PyVal.str "r")
          else Except.error FetchErr.malformed)
          = Except.error FetchErr.malformed →
        dictGet ([] : List (String × CVal)) i = none →
        dictGet c' i = none) ∧
      (∀ j ∈ ["GB-CHC-1", "GB-CHC-2"],
        (∃ v, (if j = "GB-CHC-1" then Except.ok (PyVal.str "r")
          else Except.error FetchErr.malformed) = Except.ok v) →
        (dictGet c' j).isSome)) ∧
    (∃ c', lookupCompanyLoop (fun _ => Except.error FetchErr.malformed)
        ["GB-COH-9"] [] = .ok c' ∧
      (∀ i ∈ ["GB-COH-9"],
        (Except.error FetchErr.malformed : Except FetchErr PyVal) =
          Except.error FetchErr.malformed →
        dictGet ([] : List (String × CVal)) i = none →
        dictGet c' i = none) ∧
      (∀ j ∈ ["GB-COH-9"],
        (∃ v, (Except.error FetchErr.malformed : Except FetchErr PyVal) =
          Except.ok v) →
        (dictGet c' j).isSome)) ∧
    (∃ c', lookupPostcodeLoop
        (fun _ => Except.ok (PyVal.dict [("data", PyVal.null)]))
        ["AB1 2CD"] [] = .ok c' ∧
      (∀ i ∈ ["AB1 2CD"],
        (Except.ok (PyVal.dict [("data", PyVal.null)]) : Except FetchErr PyVal)
          = Except.error FetchErr.malformed →
        dictGet ([] : List (String × CVal)) i = none →
        dictGet c' i = none) ∧
      (∀ j ∈ ["AB1 2CD"],
        (∃ v, (Except.ok (PyVal.dict [("data", PyVal.null)]) :
            Except FetchErr PyVal) = Except.ok v) →
        (dictGet c' j).isSome)) :=
  C3_per_item_failures_skipped
    (fun s => if s = "GB-CHC-1" then Except.ok (PyVal.str "r")
      else Except.error FetchErr.malformed)
    (fun _ => Except.error FetchErr.malformed)
    (fun _ => Except.ok (PyVal.dict [("data", PyVal.null)]))
    ["GB-CHC-1", "GB-CHC-2"] ["GB-COH-9"] ["AB1 2CD"] [] [] []
    (by decide) (by decide) (by decide)
    (by
      intro i hi h
      by_cases hA : i = "GB-CHC-1" <;> simp [hA] at h)
    (by
      intro i hi h
      simp at h)
    (by
      intro i hi h
      simp at h)

end Insights
